import Mathlib

/-!
Shallow embedding of the app-specification compiler of this repository:
`src/shiny_proxy/merge_apps.py` (class `ShinyProxyConfigManager`) and the
divergent variant `src/continit/merge_apps_into_proxy_config.py`.

Python dictionaries whose keys matter to the compiler are embedded as
structures with `Option` fields (absent key = `none`); the author-facing
`http-headers` / `container-env` mappings are embedded as ordered
association lists, since Python dicts preserve insertion order and
`dict.update` replaces the value of an existing key in place and appends
new keys in order.
-/

namespace ShinyProxy

/-- `updateAssoc k v m` is the embedding of the Python statement
`m[k] = v` on an insertion-ordered dict: the first entry with key `k`
has its value replaced in place, and if no entry has key `k` the pair
is appended at the end. -/
def updateAssoc (k v : String) : List (String × String) → List (String × String)
  | [] => [(k, v)]
  | (k₁, v₁) :: rest =>
    if k₁ = k then (k, v) :: rest else (k₁, v₁) :: updateAssoc k v rest

/-- `lookupAssoc k m` is the embedding of the Python expression `m[k]`
(resp. `m.get(k)`): the value of the first entry with key `k`. -/
def lookupAssoc (k : String) : List (String × String) → Option String
  | [] => none
  | (k₁, v₁) :: rest => if k₁ = k then some v₁ else lookupAssoc k rest

/-- `updateAll ps m` is the embedding of the Python statement
`m.update({...ps...})`: the updates of `ps` applied to `m` in order. -/
def updateAll (ps : List (String × String)) (m : List (String × String)) :
    List (String × String) :=
  ps.foldl (fun acc p => updateAssoc p.1 p.2 acc) m

/-- The `sharing` sub-block of an entry's `pre-initialization` block.
Raw YAML sub-dict: absent keys are `none`; field names correspond to the
keys `enabled`, `allowed-users`, `allowed-groups`. -/
structure SharingConfig where
  enabled : Option Bool := none
  allowedUsers : Option (List String) := none
  allowedGroups : Option (List String) := none
deriving DecidableEq

/-- The raw `pre-initialization` block of an entry. Field names correspond
to the YAML keys `enabled`, `minimum-seats`, `maximum-seats`, `max-seats`,
`wait-time`, `idle-timeout`, `sharing`. Both `maximumSeats` (the input
schema's spelling) and `maxSeats` (the key the code actually subscripts at
line 168 of `merge_apps.py`) are carried, since a raw dict may hold either
key. -/
structure PreInitConfig where
  enabled : Option Bool := none
  minimumSeats : Option Int := none
  maximumSeats : Option Int := none
  maxSeats : Option Int := none
  waitTime : Option Int := none
  idleTimeout : Option Int := none
  sharing : Option SharingConfig := none
deriving DecidableEq

/-- The `ecs` sub-dict written by `configure_app_resources` (lines
224-237), with the nested `log-configuration` dict flattened into the
`logDriver` / `awslogs*` fields (`awslogsStreamPfx` is the key
`awslogs-stream-prefix`). -/
structure EcsBlock where
  taskDefinition : String
  cpu : String
  memory : String
  enableExecuteCommand : Bool
  logDriver : String
  awslogsGroup : String
  awslogsRegion : String
  awslogsStreamPfx : String
deriving DecidableEq

/-- The `metadata` stamp written by `merge_apps_config` (lines 264-268). -/
structure MetaBlock where
  team : String
  created : String
  version : String
deriving DecidableEq

/-- One app entry, before and after compilation. Field names correspond to
the dict keys `id`, `pre-initialization`, `container-cpu-request`,
`container-memory-request`, `container-instances-min`,
`container-instances-max`, `container-wait-time`, `container-idle-timeout`,
`http-headers`, `container-env`, `container-sharing-enabled`,
`access-users`, `access-groups`, `container-sharing-groups`, `ecs`,
`metadata`; an absent key is `none`. -/
structure AppSpec where
  id : Option String := none
  preInitialization : Option PreInitConfig := none
  containerCpuRequest : Option Int := none
  containerMemoryRequest : Option Int := none
  containerInstancesMin : Option Int := none
  containerInstancesMax : Option Int := none
  containerWaitTime : Option Int := none
  containerIdleTimeout : Option Int := none
  httpHeaders : Option (List (String × String)) := none
  containerEnv : Option (List (String × String)) := none
  containerSharingEnabled : Option Bool := none
  accessUsers : Option (List String) := none
  accessGroups : Option (List String) := none
  containerSharingGroups : Option (List String) := none
  ecs : Option EcsBlock := none
  metadata : Option MetaBlock := none
deriving DecidableEq

/-- Failure modes of one compilation run. The Python source defines no
custom exception classes: the only error it can construct is an uncaught
`KeyError` from subscripting a missing dict key (`keyError`). The
remaining constructors name the error taxonomy of the specification
(`MissingRequiredField`, `InvalidPolicy`, `DuplicateAppId`) so that claims
about those errors are statable; the embedded code never produces them. -/
inductive CompileError where
  | keyError (key : String)
  | missingRequiredField (field : String)
  | invalidPolicy
  | duplicateAppId (appId : String)
deriving DecidableEq

/-- The fixed identity/session-propagation headers injected by
`configure_pre_initialization` (lines 178-187), in dict-literal order.
The only team-dependent value is `X-SP-TeamName`. -/
def injected_headers (team : String) : List (String × String) :=
  [("X-SP-UserId", "#\x7bproxy.userId\x7d"),
   ("X-SP-UserGroups", "#\x7bproxy.userGroups\x7d"),
   ("X-SP-UserAttributes", "#\x7bproxy.userAttributes\x7d"),
   ("X-SP-AccessToken", "#\x7boidcUser.accessToken\x7d"),
   ("X-SP-IdToken", "#\x7boidcUser.idToken\x7d"),
   ("X-SP-RefreshToken", "#\x7boidcUser.refreshToken\x7d"),
   ("X-SP-SessionId", "#\x7bproxy.sessionId\x7d"),
   ("X-SP-TeamName", team)]

/-- The fixed environment markers injected by
`configure_pre_initialization` (lines 193-198), in dict-literal order. -/
def injected_env (team : String) : List (String × String) :=
  [("SP_CONTAINER_PRE_INIT", "true"),
   ("SP_AUTH_TYPE", "header"),
   ("SP_TEAM_NAME", team),
   ("SP_APP_INSTANCE_ID", "#\x7bproxy.appInstanceId\x7d")]

/-- Embedding of the `if 'sharing' in pre_init_config:` block of
`configure_pre_initialization` (lines 200-209). -/
def configure_sharing (cfg : PreInitConfig) (e : AppSpec) : AppSpec :=
  match cfg.sharing with
  | none => e
  | some sh =>
    if sh.enabled.getD false = true then
      let e₁ := { e with containerSharingEnabled := some true }
      let e₂ := match sh.allowedUsers with
                | some us => { e₁ with accessUsers := some us }
                | none => e₁
      let e₃ := match sh.allowedGroups with
                | some gs => { e₂ with accessGroups := some gs }
                | none => e₂
      { e₃ with containerSharingGroups := some (sh.allowedGroups.getD []) }
    else e

/-- Embedding of `ShinyProxyConfigManager.configure_pre_initialization`
(lines 158-211). `pre_init_config = app_spec.get('pre-initialization', {})`
is `e.preInitialization.getD {}`; note that the maximum is read from the
key `max-seats` with default `min_seats * 3`, and that creating a missing
`http-headers` / `container-env` dict and then calling `.update` is
`updateAll` over `getD []`. -/
def configure_pre_initialization (team : String) (e : AppSpec) : AppSpec :=
  let cfg := e.preInitialization.getD {}
  if cfg.enabled.getD false = true then
    let minSeats := cfg.minimumSeats.getD 1
    let e₁ := { e with
      containerInstancesMin := some minSeats
      containerInstancesMax := some (cfg.maxSeats.getD (minSeats * 3))
      containerWaitTime := some (cfg.waitTime.getD 60000)
      containerIdleTimeout := some (cfg.idleTimeout.getD 3600000)
      httpHeaders := some (updateAll (injected_headers team) (e.httpHeaders.getD []))
      containerEnv := some (updateAll (injected_env team) (e.containerEnv.getD [])) }
    configure_sharing cfg e₁
  else e

/-- Embedding of `ShinyProxyConfigManager.configure_app_resources`
(lines 213-239). Subscripting `app_spec['id']` on an entry without `id`
raises `KeyError('id')`; `region` stands for the process-environment read
`os.getenv('AWS_REGION', 'us-east-1')`. -/
def configure_app_resources (team region : String) (e : AppSpec) :
    Except CompileError AppSpec :=
  match e.id with
  | none => .error (.keyError "id")
  | some appId =>
    let cpu := e.containerCpuRequest.getD 1024
    let mem := e.containerMemoryRequest.getD 2048
    .ok { e with ecs := some {
      taskDefinition := team ++ "-" ++ appId ++ "-task"
      cpu := toString cpu
      memory := toString mem
      enableExecuteCommand := true
      logDriver := "awslogs"
      awslogsGroup := "/ecs/" ++ team ++ "/" ++ appId
      awslogsRegion := region
      awslogsStreamPfx := "ecs" } }

/-- Embedding of one iteration of the loop of
`ShinyProxyConfigManager.merge_apps_config` (lines 249-270): the logging
f-string subscripts `app_spec['id']` first (raising `KeyError('id')` when
`id` is absent), then pre-initialization, resources, the Redis namespace
environment variable, and the metadata stamp. `now` stands for
`datetime.utcnow().isoformat()`. -/
def process_app (team region now : String) (e : AppSpec) :
    Except CompileError AppSpec :=
  match e.id with
  | none => .error (.keyError "id")
  | some appId =>
    let e₁ := configure_pre_initialization team e
    match configure_app_resources team region e₁ with
    | .error err => .error err
    | .ok e₂ =>
      let env := updateAssoc "REDIS_NAMESPACE" (team ++ ":" ++ appId)
        (e₂.containerEnv.getD [])
      .ok { e₂ with
        containerEnv := some env
        metadata := some { team := team, created := now, version := "2.0" } }

/-- Embedding of `ShinyProxyConfigManager.merge_apps_config` (lines
241-273) restricted to its core: the S3 read of `apps.yml` is an external
collaborator, so the parsed entry list `apps_config.get('specs', [])` is
taken as input, and the returned list is what the function assigns to
`base_config['proxy']['specs']`. An uncaught exception in any iteration
aborts the whole run (fail-fast, no partial output). -/
def merge_apps_config (team region now : String) :
    List AppSpec → Except CompileError (List AppSpec)
  | [] => .ok []
  | e :: rest =>
    match process_app team region now e with
    | .error err => .error err
    | .ok s =>
      match merge_apps_config team region now rest with
      | .error err => .error err
      | .ok ss => .ok (s :: ss)

/-- One app entry of the divergent variant
`src/continit/merge_apps_into_proxy_config.py`. Field names correspond to
the dict keys `id`, `pre-initialize` (`preInit`), `minimum-seats-available`,
`container-instances-min`, `container-wait-time`, `container-pool-size`,
`http-headers`, `container-env`, `allowed-users`, `allowed-groups`,
`access-users`, `access-groups`; an absent key is `none`. -/
structure CApp where
  id : Option String := none
  preInit : Option Bool := none
  minimumSeatsAvailable : Option Int := none
  containerInstancesMin : Option Int := none
  containerWaitTime : Option Int := none
  containerPoolSize : Option Int := none
  httpHeaders : Option (List (String × String)) := none
  containerEnv : Option (List (String × String)) := none
  allowedUsers : Option (List String) := none
  allowedGroups : Option (List String) := none
  accessUsers : Option (List String) := none
  accessGroups : Option (List String) := none
deriving DecidableEq

/-- Modelled from the spec: `setup_user_sharing_config` is called at line
27 of `merge_apps_into_proxy_config.py` but defined nowhere in the
repository sources. Per the specification's `SharingPolicy` and output
schema (`access-users`/`access-groups` when sharing is configured) it
records the allow lists on the entry. No claim below depends on its exact
behaviour: it is only reached on non-failing paths. -/
def setup_user_sharing_config (a : CApp) (users groups : Option (List String)) :
    CApp :=
  { a with accessUsers := users, accessGroups := groups }

/-- The header dict assigned wholesale (not merged) by
`merge_apps_into_proxy_config` at lines 18-23. -/
def continit_headers : List (String × String) :=
  [("Authorization", "Bearer #\x7boidcUser.accessToken\x7d"),
   ("X-SP-USERNAME", "#\x7bproxy.userId\x7d"),
   ("X-SP-GROUPS", "#\x7bproxy.userGroups\x7d"),
   ("X-SP-ATTRIBUTES", "#\x7bproxy.userAttributes\x7d")]

/-- Embedding of one iteration of the loop of
`merge_apps_into_proxy_config` (lines 5-36). When `pre-initialize` is
truthy the statement `app_spec['container-env']['SHINYPROXY_AUTH_TYPE'] =
'header'` (line 17) subscripts `container-env` before the
`if 'container-env' not in app_spec` guard at line 34 ever runs, raising
`KeyError('container-env')` if the key is absent. The namespace assignment
at line 36 evaluates its f-string (and hence `app_spec['id']`) first. -/
def process_capp (team : String) (a : CApp) : Except CompileError CApp :=
  let step1 : Except CompileError CApp :=
    if a.preInit.getD false = true then
      let minSeats := a.minimumSeatsAvailable.getD 2
      let a₁ := { a with
        containerInstancesMin := some minSeats
        containerWaitTime := some 60000
        containerPoolSize := some (minSeats * 2) }
      match a₁.containerEnv with
      | none => .error (.keyError "container-env")
      | some env =>
        let a₂ := { a₁ with
          containerEnv := some (updateAssoc "SHINYPROXY_AUTH_TYPE" "header" env)
          httpHeaders := some continit_headers }
        if a₂.allowedUsers.isSome || a₂.allowedGroups.isSome then
          .ok (setup_user_sharing_config a₂ a₂.allowedUsers a₂.allowedGroups)
        else .ok a₂
    else .ok a
  match step1 with
  | .error err => .error err
  | .ok a₃ =>
    match a₃.id with
    | none => .error (.keyError "id")
    | some appId =>
      .ok { a₃ with containerEnv := some (updateAssoc "REDIS_NAMESPACE"
              (team ++ ":" ++ appId) (a₃.containerEnv.getD [])) }

/-- Embedding of `merge_apps_into_proxy_config` over the entry list
`specs` (the code producing `specs` is elided in the source as
`# ... existing code ...`, so the list is taken as input). The `try`
block re-raises every exception, so any failing entry aborts the run. -/
def merge_apps_into_proxy_config (team : String) :
    List CApp → Except CompileError (List CApp)
  | [] => .ok []
  | a :: rest =>
    match process_capp team a with
    | .error err => .error err
    | .ok a₁ =>
      match merge_apps_into_proxy_config team rest with
      | .error err => .error err
      | .ok as₂ => .ok (a₁ :: as₂)

/-! Concrete entries used to instantiate the theorems below. -/

/-- Raw entry: `pre-initialization: {enabled: true, minimum-seats: 5,
maximum-seats: 2}` — the spec's InvalidPolicy example input. -/
def exC1 : AppSpec :=
  { id := some "app1", preInitialization := some
      { enabled := some true, minimumSeats := some 5, maximumSeats := some 2 } }

/-- Raw entry supplying the key the code actually reads:
`pre-initialization: {enabled: true, minimum-seats: 5, max-seats: 2}`. -/
def exC1b : AppSpec :=
  { id := some "app1", preInitialization := some
      { enabled := some true, minimumSeats := some 5, maxSeats := some 2 } }

/-- Raw entry with only `id: app1`. -/
def exC2 : AppSpec := { id := some "app1" }

/-- Raw entry with pre-initialization enabled whose author tries to spoof
an injected header and an injected env marker, plus untouched keys. -/
def exC3 : AppSpec :=
  { id := some "a",
    preInitialization := some { enabled := some true },
    httpHeaders := some [("X-SP-UserId", "spoofed"), ("X-Custom", "mine")],
    containerEnv := some [("SP_AUTH_TYPE", "fake"), ("MY_VAR", "1")] }

/-- Raw entry with `minimum-seats: 2` and an explicit `maximum-seats: 10`. -/
def exC4 : AppSpec :=
  { id := some "a", preInitialization := some
      { enabled := some true, minimumSeats := some 2, maximumSeats := some 10 } }

/-- Raw entry with `minimum-seats: 2` and no maximum supplied. -/
def exC4w : AppSpec :=
  { id := some "a", preInitialization := some
      { enabled := some true, minimumSeats := some 2 } }

/-- Raw entry supplying `minimum-seats: 0` and `max-seats: -1`. -/
def exC5 : AppSpec :=
  { id := some "a", preInitialization := some
      { enabled := some true, minimumSeats := some 0, maxSeats := some (-1) } }

/-- Raw entry lacking `id`. -/
def exC6 : AppSpec := { httpHeaders := some [("A", "b")] }

/-- Raw entry `id: dash1` with author-supplied maps and no
pre-initialization block. -/
def exC7 : AppSpec :=
  { id := some "dash1", httpHeaders := some [("H1", "v1")],
    containerEnv := some [("E1", "x")] }

/-- Raw entry: pre-initialization enabled with `minimum-seats: 1` and one
author-supplied header. -/
def exC9a : AppSpec :=
  { id := some "app-a", httpHeaders := some [("X-Auth", "token123")],
    preInitialization := some { enabled := some true, minimumSeats := some 1 } }

/-- Raw entry: pre-initialization absent, author-supplied header and env. -/
def exC9b : AppSpec :=
  { id := some "app-b", httpHeaders := some [("H1", "v1")],
    containerEnv := some [("E1", "x")] }

/-- Continit-variant raw entry: `pre-initialize: true`, no `container-env`. -/
def exC10 : CApp := { id := some "x", preInit := some true }

/-! Lemmas about the association-list dict operations. -/

@[simp]
theorem updateAll_nil (m : List (String × String)) : updateAll [] m = m := rfl

@[simp]
theorem updateAll_cons (p : String × String) (ps : List (String × String))
    (m : List (String × String)) :
    updateAll (p :: ps) m = updateAll ps (updateAssoc p.1 p.2 m) := rfl

@[simp]
theorem lookupAssoc_updateAssoc_self (k v : String) (m : List (String × String)) :
    lookupAssoc k (updateAssoc k v m) = some v := by
  induction m with
  | nil => simp [updateAssoc, lookupAssoc]
  | cons p rest ih =>
    obtain ⟨k₁, v₁⟩ := p
    by_cases h : k₁ = k
    · simp [updateAssoc, lookupAssoc, h]
    · simp [updateAssoc, lookupAssoc, h, ih]

theorem lookupAssoc_updateAssoc_ne (k k₂ v : String) (hne : k ≠ k₂)
    (m : List (String × String)) :
    lookupAssoc k (updateAssoc k₂ v m) = lookupAssoc k m := by
  induction m with
  | nil => simp [updateAssoc, lookupAssoc, hne, Ne.symm hne]
  | cons p rest ih =>
    obtain ⟨k₁, v₁⟩ := p
    by_cases h : k₁ = k₂
    · subst h
      simp [updateAssoc, lookupAssoc, hne, Ne.symm hne]
    · by_cases h2 : k₁ = k
      · subst h2
        simp [updateAssoc, lookupAssoc, h, Ne.symm hne]
      · simp [updateAssoc, lookupAssoc, h, h2, ih]

theorem lookupAssoc_isSome_updateAssoc (k₀ k v : String) (m : List (String × String))
    (h : (lookupAssoc k₀ m).isSome) :
    (lookupAssoc k₀ (updateAssoc k v m)).isSome := by
  by_cases hk : k₀ = k
  · subst hk
    simp
  · rw [lookupAssoc_updateAssoc_ne k₀ k v hk]
    exact h

theorem updateAssoc_updateAssoc_self (k v : String) (m : List (String × String)) :
    updateAssoc k v (updateAssoc k v m) = updateAssoc k v m := by
  induction m with
  | nil => simp [updateAssoc]
  | cons p rest ih =>
    obtain ⟨k₁, v₁⟩ := p
    by_cases h : k₁ = k
    · simp [updateAssoc, h]
    · simp [updateAssoc, h, ih]

/-- Two single updates with distinct keys commute provided the first key is
already present in the dict (then neither update can append past the other). -/
theorem updateAssoc_comm_mem (k v k₂ v₂ : String) (hne : k ≠ k₂)
    (m : List (String × String)) (hmem : (lookupAssoc k m).isSome) :
    updateAssoc k v (updateAssoc k₂ v₂ m) = updateAssoc k₂ v₂ (updateAssoc k v m) := by
  induction m with
  | nil => simp [lookupAssoc] at hmem
  | cons p rest ih =>
    obtain ⟨k₁, v₁⟩ := p
    by_cases h1 : k₁ = k₂
    · subst h1
      simp [updateAssoc, hne, Ne.symm hne]
    · by_cases h2 : k₁ = k
      · subst h2
        simp [updateAssoc, h1, Ne.symm hne]
      · have hmem₂ : (lookupAssoc k rest).isSome := by
          simpa [lookupAssoc, h2] using hmem
        simp [updateAssoc, h1, h2, ih hmem₂]

/-- A single update whose key is already present and absent from `ps`
commutes past the whole batch `updateAll ps`. -/
theorem updateAssoc_updateAll_comm_mem (k v : String) (ps : List (String × String))
    (hk : ∀ p ∈ ps, p.1 ≠ k) (m : List (String × String))
    (hmem : (lookupAssoc k m).isSome) :
    updateAssoc k v (updateAll ps m) = updateAll ps (updateAssoc k v m) := by
  induction ps generalizing m with
  | nil => simp
  | cons p rest ih =>
    obtain ⟨k₁, v₁⟩ := p
    have h1 : k₁ ≠ k := hk (k₁, v₁) (List.mem_cons_self _ _)
    have h2 : ∀ q ∈ rest, q.1 ≠ k := fun q hq => hk q (List.mem_cons_of_mem _ hq)
    simp only [updateAll_cons]
    rw [ih h2 _ (lookupAssoc_isSome_updateAssoc k k₁ v₁ m hmem),
        updateAssoc_comm_mem k v k₁ v₁ (Ne.symm h1) m hmem]

/-- Applying a pairwise-distinct-keyed batch of updates twice is the same
as applying it once (idempotence of `dict.update` with a fixed literal). -/
theorem updateAll_idem (ps : List (String × String))
    (hps : ps.Pairwise (fun p q => p.1 ≠ q.1)) (m : List (String × String)) :
    updateAll ps (updateAll ps m) = updateAll ps m := by
  induction ps generalizing m with
  | nil => simp
  | cons p rest ih =>
    obtain ⟨k, v⟩ := p
    have hfresh : ∀ q ∈ rest, q.1 ≠ k :=
      fun q hq => Ne.symm ((List.pairwise_cons.mp hps).1 q hq)
    have htail : rest.Pairwise (fun p q => p.1 ≠ q.1) := (List.pairwise_cons.mp hps).2
    simp only [updateAll_cons]
    rw [updateAssoc_updateAll_comm_mem k v rest hfresh _ (by simp),
        updateAssoc_updateAssoc_self, ih htail]

/-- A key untouched by a batch of updates keeps its prior value. -/
theorem lookupAssoc_updateAll_notMem (k : String) (ps : List (String × String))
    (hk : ∀ p ∈ ps, p.1 ≠ k) (m : List (String × String)) :
    lookupAssoc k (updateAll ps m) = lookupAssoc k m := by
  induction ps generalizing m with
  | nil => simp
  | cons p rest ih =>
    obtain ⟨k₁, v₁⟩ := p
    have h1 : k₁ ≠ k := hk (k₁, v₁) (List.mem_cons_self _ _)
    have h2 : ∀ q ∈ rest, q.1 ≠ k := fun q hq => hk q (List.mem_cons_of_mem _ hq)
    simp only [updateAll_cons]
    rw [ih h2, lookupAssoc_updateAssoc_ne k k₁ v₁ (Ne.symm h1)]

/-- A key updated by a pairwise-distinct-keyed batch ends at its batch value. -/
theorem lookupAssoc_updateAll_mem (k v : String) (ps : List (String × String))
    (hps : ps.Pairwise (fun p q => p.1 ≠ q.1)) (hmem : (k, v) ∈ ps)
    (m : List (String × String)) :
    lookupAssoc k (updateAll ps m) = some v := by
  induction ps generalizing m with
  | nil => simp at hmem
  | cons p rest ih =>
    have htail : rest.Pairwise (fun p q => p.1 ≠ q.1) := (List.pairwise_cons.mp hps).2
    rcases List.mem_cons.mp hmem with heq | hmem₂
    · subst heq
      have hfresh : ∀ q ∈ rest, q.1 ≠ k :=
        fun q hq => Ne.symm ((List.pairwise_cons.mp hps).1 q hq)
      simp only [updateAll_cons]
      rw [lookupAssoc_updateAll_notMem k rest hfresh, lookupAssoc_updateAssoc_self]
    · simp only [updateAll_cons]
      exact ih htail hmem₂ _

/-! Characterization lemmas for the embedded functions. -/

/-- `configure_sharing` only writes the four sharing-related fields. -/
theorem configure_sharing_eq (cfg : PreInitConfig) (e : AppSpec) :
    ∃ b u g sg, configure_sharing cfg e =
      { e with containerSharingEnabled := b, accessUsers := u,
               accessGroups := g, containerSharingGroups := sg } := by
  cases hs : cfg.sharing with
  | none =>
    refine ⟨e.containerSharingEnabled, e.accessUsers, e.accessGroups,
            e.containerSharingGroups, ?_⟩
    simp only [configure_sharing, hs]
  | some sh =>
    by_cases h : sh.enabled.getD false = true
    · cases hu : sh.allowedUsers with
      | none =>
        cases hg : sh.allowedGroups with
        | none =>
          refine ⟨some true, e.accessUsers, e.accessGroups,
                  some (sh.allowedGroups.getD []), ?_⟩
          simp [configure_sharing, hs, hu, hg, h]
        | some gs =>
          refine ⟨some true, e.accessUsers, some gs,
                  some (sh.allowedGroups.getD []), ?_⟩
          simp [configure_sharing, hs, hu, hg, h]
      | some us =>
        cases hg : sh.allowedGroups with
        | none =>
          refine ⟨some true, some us, e.accessGroups,
                  some (sh.allowedGroups.getD []), ?_⟩
          simp [configure_sharing, hs, hu, hg, h]
        | some gs =>
          refine ⟨some true, some us, some gs,
                  some (sh.allowedGroups.getD []), ?_⟩
          simp [configure_sharing, hs, hu, hg, h]
    · refine ⟨e.containerSharingEnabled, e.accessUsers, e.accessGroups,
              e.containerSharingGroups, ?_⟩
      simp only [configure_sharing, hs, if_neg h]

/-- When the resolved pre-initialization block is not enabled,
`configure_pre_initialization` returns the entry unchanged. -/
theorem configure_pre_initialization_not_enabled (team : String) (e : AppSpec)
    (h : ¬ (e.preInitialization.getD {}).enabled.getD false = true) :
    configure_pre_initialization team e = e := by
  simp only [configure_pre_initialization]
  rw [if_neg h]

/-- When the resolved pre-initialization block is enabled, the output of
`configure_pre_initialization` projected to the fields it resolves. -/
theorem configure_pre_initialization_enabled (team : String) (e : AppSpec)
    (h : (e.preInitialization.getD {}).enabled.getD false = true) :
    (configure_pre_initialization team e).id = e.id ∧
    (configure_pre_initialization team e).preInitialization = e.preInitialization ∧
    (configure_pre_initialization team e).containerCpuRequest = e.containerCpuRequest ∧
    (configure_pre_initialization team e).containerMemoryRequest
      = e.containerMemoryRequest ∧
    (configure_pre_initialization team e).containerInstancesMin
      = some ((e.preInitialization.getD {}).minimumSeats.getD 1) ∧
    (configure_pre_initialization team e).containerInstancesMax
      = some ((e.preInitialization.getD {}).maxSeats.getD
          ((e.preInitialization.getD {}).minimumSeats.getD 1 * 3)) ∧
    (configure_pre_initialization team e).containerWaitTime
      = some ((e.preInitialization.getD {}).waitTime.getD 60000) ∧
    (configure_pre_initialization team e).containerIdleTimeout
      = some ((e.preInitialization.getD {}).idleTimeout.getD 3600000) ∧
    (configure_pre_initialization team e).httpHeaders
      = some (updateAll (injected_headers team) (e.httpHeaders.getD [])) ∧
    (configure_pre_initialization team e).containerEnv
      = some (updateAll (injected_env team) (e.containerEnv.getD [])) := by
  simp only [configure_pre_initialization]
  rw [if_pos h]
  obtain ⟨b, u, g, sg, hEq⟩ := configure_sharing_eq (e.preInitialization.getD {})
    { e with
      containerInstancesMin := some ((e.preInitialization.getD {}).minimumSeats.getD 1)
      containerInstancesMax := some ((e.preInitialization.getD {}).maxSeats.getD
        ((e.preInitialization.getD {}).minimumSeats.getD 1 * 3))
      containerWaitTime := some ((e.preInitialization.getD {}).waitTime.getD 60000)
      containerIdleTimeout := some ((e.preInitialization.getD {}).idleTimeout.getD 3600000)
      httpHeaders := some (updateAll (injected_headers team) (e.httpHeaders.getD []))
      containerEnv := some (updateAll (injected_env team) (e.containerEnv.getD [])) }
  rw [hEq]
  exact ⟨rfl, rfl, rfl, rfl, rfl, rfl, rfl, rfl, rfl, rfl⟩

/-- `configure_pre_initialization` never changes the entry's `id`. -/
theorem configure_pre_initialization_id (team : String) (e : AppSpec) :
    (configure_pre_initialization team e).id = e.id := by
  by_cases h : (e.preInitialization.getD {}).enabled.getD false = true
  · exact (configure_pre_initialization_enabled team e h).1
  · rw [configure_pre_initialization_not_enabled team e h]

/-- The keys of the injected header set are pairwise distinct. -/
theorem injected_headers_pairwise (team : String) :
    (injected_headers team).Pairwise (fun p q => p.1 ≠ q.1) := by
  simp [injected_headers, List.pairwise_cons]

/-- The keys of the injected environment-marker set are pairwise distinct. -/
theorem injected_env_pairwise (team : String) :
    (injected_env team).Pairwise (fun p q => p.1 ≠ q.1) := by
  simp [injected_env, List.pairwise_cons]

/-- Full output of `process_app` on an entry that has an `id`. -/
theorem process_app_eq_ok (team region now : String) (e : AppSpec) (i : String)
    (hi : e.id = some i) :
    process_app team region now e = .ok
      { configure_pre_initialization team e with
        ecs := some
          { taskDefinition := team ++ "-" ++ i ++ "-task"
            cpu := toString
              ((configure_pre_initialization team e).containerCpuRequest.getD 1024)
            memory := toString
              ((configure_pre_initialization team e).containerMemoryRequest.getD 2048)
            enableExecuteCommand := true
            logDriver := "awslogs"
            awslogsGroup := "/ecs/" ++ team ++ "/" ++ i
            awslogsRegion := region
            awslogsStreamPfx := "ecs" }
        containerEnv := some (updateAssoc "REDIS_NAMESPACE" (team ++ ":" ++ i)
          ((configure_pre_initialization team e).containerEnv.getD []))
        metadata := some { team := team, created := now, version := "2.0" } } := by
  have h2 : (configure_pre_initialization team e).id = some i := by
    rw [configure_pre_initialization_id, hi]
  simp [process_app, hi, configure_app_resources, h2]

/-- The only error `process_app` can produce is `KeyError('id')`. -/
theorem process_app_error_eq (team region now : String) (e : AppSpec)
    (err : CompileError) (h : process_app team region now e = .error err) :
    err = .keyError "id" := by
  cases hid : e.id with
  | none =>
    rw [process_app, hid] at h
    exact (Except.error.injEq .. ▸ h).symm
  | some i =>
    rw [process_app_eq_ok team region now e i hid] at h
    exact absurd h (by simp)

/-! Claim theorems. -/

/-- C1 counterexample: compiling the spec's own example input
(`minimum-seats = 5`, `maximum-seats = 2`) does not fail with
`InvalidPolicy`: the run succeeds and produces an output entry with
resolved min 5 and max 15, because the code reads the key `max-seats`
(so `maximum-seats` is ignored and the default `3 * minSeats` applies).
Even supplying the read key `max-seats = 2`, which resolves max to
2 < min 5, compiles successfully. -/
theorem C1_counterexample :
    (merge_apps_config "acme" "us-east-1" "2025-01-01T00:00:00" [exC1]).map
        (·.map (fun s => (s.id, s.containerInstancesMin, s.containerInstancesMax)))
      = .ok [(some "app1", some 5, some 15)] ∧
    (merge_apps_config "acme" "us-east-1" "2025-01-01T00:00:00" [exC1b]).map
        (·.map (fun s => (s.containerInstancesMin, s.containerInstancesMax)))
      = .ok [(some 5, some 2)] :=
  ⟨rfl, rfl⟩

/-- C1 (amended): `merge_apps_config` performs no pre-initialization
policy validation at all: a single-entry run succeeds whenever the entry
has an `id`, whatever its pre-initialization block — in particular for
`minimum-seats = 5` with `maximum-seats = 2`, which resolves to min 5,
max 15 and still produces an output document. -/
theorem C1_no_invalid_policy (team region now : String) (e : AppSpec)
    (hid : e.id.isSome = true) :
    (merge_apps_config team region now [e]).isOk = true := by
  obtain ⟨i, hi⟩ := Option.isSome_iff_exists.mp hid
  simp only [merge_apps_config, process_app_eq_ok team region now e i hi]
  rfl

/-- C1 witness: the amended theorem applied to the spec's example entry. -/
theorem C1_witness :
    (merge_apps_config "acme" "us-east-1" "2025-01-01T00:00:00" [exC1]).isOk
      = true :=
  C1_no_invalid_policy "acme" "us-east-1" "2025-01-01T00:00:00" exC1 rfl

/-- C2 counterexample: compiling two entries that both have `id = "app1"`
in the same run does not fail with `DuplicateAppId` — the run succeeds. -/
theorem C2_counterexample :
    (merge_apps_config "acme" "us-east-1" "2025-01-01T00:00:00"
      [exC2, exC2]).isOk = true :=
  rfl

/-- C2 (amended): no duplicate-id check exists anywhere in the run:
`merge_apps_config` resolves entries independently and keeps every entry
in input order, whatever their ids — in particular two entries resolving
to the same id both appear in the output. -/
theorem C2_no_duplicate_check (team region now i₁ i₂ : String) (e₁ e₂ : AppSpec)
    (h₁ : e₁.id = some i₁) (h₂ : e₂.id = some i₂) :
    (merge_apps_config team region now [e₁, e₂]).map (·.map (·.id))
      = .ok [some i₁, some i₂] := by
  simp only [merge_apps_config, process_app_eq_ok team region now e₁ i₁ h₁,
             process_app_eq_ok team region now e₂ i₂ h₂]
  simp [Except.map, configure_pre_initialization_id, h₁, h₂]

/-- C2 witness: the amended theorem applied to two entries sharing
`id = "app1"`: both compile and appear in order. -/
theorem C2_witness :
    (merge_apps_config "acme" "us-east-1" "2025-01-01T00:00:00"
        [exC2, exC2]).map (·.map (·.id))
      = .ok [some "app1", some "app1"] :=
  C2_no_duplicate_check "acme" "us-east-1" "2025-01-01T00:00:00"
    "app1" "app1" exC2 exC2 rfl rfl

/-- C3: for every entry whose pre-initialization policy is enabled, the
header/env merge of `configure_pre_initialization` has override
semantics: every key of the fixed injected header and env-marker sets
maps to its platform-injected value in the output, and every key outside
the injected sets keeps its author-supplied value. -/
theorem C3_override_merge (team : String) (e : AppSpec)
    (h : (e.preInitialization.getD {}).enabled.getD false = true) :
    (∀ p ∈ injected_headers team,
      lookupAssoc p.1 ((configure_pre_initialization team e).httpHeaders.getD [])
        = some p.2) ∧
    (∀ k, (∀ p ∈ injected_headers team, p.1 ≠ k) →
      lookupAssoc k ((configure_pre_initialization team e).httpHeaders.getD [])
        = lookupAssoc k (e.httpHeaders.getD [])) ∧
    (∀ p ∈ injected_env team,
      lookupAssoc p.1 ((configure_pre_initialization team e).containerEnv.getD [])
        = some p.2) ∧
    (∀ k, (∀ p ∈ injected_env team, p.1 ≠ k) →
      lookupAssoc k ((configure_pre_initialization team e).containerEnv.getD [])
        = lookupAssoc k (e.containerEnv.getD [])) := by
  obtain ⟨-, -, -, -, -, -, -, -, hh, he⟩ :=
    configure_pre_initialization_enabled team e h
  rw [hh, he]
  refine ⟨?_, ?_, ?_, ?_⟩
  · intro p hp
    exact lookupAssoc_updateAll_mem p.1 p.2 _ (injected_headers_pairwise team) hp _
  · intro k hk
    exact lookupAssoc_updateAll_notMem k _ hk _
  · intro p hp
    exact lookupAssoc_updateAll_mem p.1 p.2 _ (injected_env_pairwise team) hp _
  · intro k hk
    exact lookupAssoc_updateAll_notMem k _ hk _

/-- C3 witness: on a concrete enabled entry, the author-supplied value of
the injected key `X-SP-UserId` is replaced, the author-supplied value of
the injected env marker `SP_AUTH_TYPE` is replaced, and the untouched
author keys `X-Custom` / `MY_VAR` keep their values. -/
theorem C3_witness :
    lookupAssoc "X-SP-UserId"
        ((configure_pre_initialization "acme" exC3).httpHeaders.getD [])
      = some "#\x7bproxy.userId\x7d" ∧
    lookupAssoc "X-Custom"
        ((configure_pre_initialization "acme" exC3).httpHeaders.getD [])
      = some "mine" ∧
    lookupAssoc "SP_AUTH_TYPE"
        ((configure_pre_initialization "acme" exC3).containerEnv.getD [])
      = some "header" ∧
    lookupAssoc "MY_VAR"
        ((configure_pre_initialization "acme" exC3).containerEnv.getD [])
      = some "1" := by
  have h := C3_override_merge "acme" exC3 rfl
  exact ⟨h.1 ("X-SP-UserId", "#\x7bproxy.userId\x7d") (by decide),
         h.2.1 "X-Custom" (by decide),
         h.2.2.1 ("SP_AUTH_TYPE", "header") (by decide),
         h.2.2.2 "MY_VAR" (by decide)⟩

/-- C4 counterexample: an explicitly supplied `maximum-seats` value does
not override its default: with `minimum-seats = 2` and
`maximum-seats = 10` the resolved `container-instances-max` is 6
(= 3 * 2), not 10, because the code reads the key `max-seats`. -/
theorem C4_counterexample :
    (configure_pre_initialization "acme" exC4).containerInstancesMax = some 6 ∧
    (6 : Int) ≠ 10 :=
  ⟨rfl, by decide⟩

/-- C4 (amended): for every enabled entry the resolver reads
`minimum-seats` with default 1, the key `max-seats` (not `maximum-seats`,
which is ignored) with default `3 * minSeats`, `wait-time` with default
60000 and `idle-timeout` with default 3600000; explicit values for the
keys actually read override their defaults. -/
theorem C4_defaults (team : String) (e : AppSpec)
    (h : (e.preInitialization.getD {}).enabled.getD false = true) :
    (configure_pre_initialization team e).containerInstancesMin
      = some ((e.preInitialization.getD {}).minimumSeats.getD 1) ∧
    (configure_pre_initialization team e).containerInstancesMax
      = some ((e.preInitialization.getD {}).maxSeats.getD
          ((e.preInitialization.getD {}).minimumSeats.getD 1 * 3)) ∧
    (configure_pre_initialization team e).containerWaitTime
      = some ((e.preInitialization.getD {}).waitTime.getD 60000) ∧
    (configure_pre_initialization team e).containerIdleTimeout
      = some ((e.preInitialization.getD {}).idleTimeout.getD 3600000) := by
  obtain ⟨-, -, -, -, hmin, hmax, hwt, hit, -, -⟩ :=
    configure_pre_initialization_enabled team e h
  exact ⟨hmin, hmax, hwt, hit⟩

/-- C4 witness: `minimum-seats = 2` with no maximum supplied resolves to
min 2, max 6, wait 60000, idle 3600000. -/
theorem C4_witness :
    (configure_pre_initialization "acme" exC4w).containerInstancesMin
      = some 2 ∧
    (configure_pre_initialization "acme" exC4w).containerInstancesMax
      = some 6 ∧
    (configure_pre_initialization "acme" exC4w).containerWaitTime
      = some 60000 ∧
    (configure_pre_initialization "acme" exC4w).containerIdleTimeout
      = some 3600000 :=
  C4_defaults "acme" exC4w rfl

/-- C5 counterexample: the emitted policy is not validated: supplying
`minimum-seats = 0` and `max-seats = -1` compiles successfully and emits
`container-instances-min = 0` (violating `minSeats >= 1`) and
`container-instances-max = -1` (violating `maxSeats >= minSeats`). -/
theorem C5_counterexample :
    (merge_apps_config "acme" "us-east-1" "2025-01-01T00:00:00" [exC5]).map
        (·.map (fun s => (s.containerInstancesMin, s.containerInstancesMax)))
      = .ok [(some 0, some (-1))] ∧
    ¬ ((1 : Int) ≤ 0) ∧ ¬ ((0 : Int) ≤ -1) :=
  ⟨rfl, by decide, by decide⟩

/-- C5 (amended): seat counts pass through unvalidated; the invariant
`minSeats >= 1 ∧ maxSeats >= minSeats` does hold for every successfully
compiled enabled entry whose supplied `minimum-seats` (after the default
1) is at least 1 and whose `max-seats` key is unsupplied (so the default
`3 * minSeats` applies). -/
theorem C5_invariant_defaults (team region now i : String) (e : AppSpec)
    (hid : e.id = some i)
    (hen : (e.preInitialization.getD {}).enabled.getD false = true)
    (hmin : 1 ≤ (e.preInitialization.getD {}).minimumSeats.getD 1)
    (hmax : (e.preInitialization.getD {}).maxSeats = none) :
    (merge_apps_config team region now [e]).map
        (·.map (fun s => (s.containerInstancesMin, s.containerInstancesMax)))
      = .ok [(some ((e.preInitialization.getD {}).minimumSeats.getD 1),
              some ((e.preInitialization.getD {}).minimumSeats.getD 1 * 3))] ∧
    1 ≤ (e.preInitialization.getD {}).minimumSeats.getD 1 ∧
    (e.preInitialization.getD {}).minimumSeats.getD 1
      ≤ (e.preInitialization.getD {}).minimumSeats.getD 1 * 3 := by
  obtain ⟨-, -, -, -, hmn, hmx, -, -, -, -⟩ :=
    configure_pre_initialization_enabled team e hen
  refine ⟨?_, hmin, by linarith⟩
  simp only [merge_apps_config, process_app_eq_ok team region now e i hid]
  simp [Except.map, hmn, hmx, hmax]

/-- C5 witness: an enabled entry with `minimum-seats = 2` and no
`max-seats` key compiles to min 2, max 6, which satisfy the invariant. -/
theorem C5_witness :
    (merge_apps_config "acme" "us-east-1" "2025-01-01T00:00:00" [exC4w]).map
        (·.map (fun s => (s.containerInstancesMin, s.containerInstancesMax)))
      = .ok [(some 2, some 6)] ∧
    (1 : Int) ≤ 2 ∧ (2 : Int) ≤ 6 :=
  C5_invariant_defaults "acme" "us-east-1" "2025-01-01T00:00:00" "a" exC4w
    rfl rfl (by decide) rfl

/-- C6 counterexample: compiling an entry without `id` fails with the
uncaught Python `KeyError('id')` raised by the first `app_spec['id']`
subscript, which is not a `MissingRequiredField` error — the source
defines no such error. -/
theorem C6_counterexample :
    merge_apps_config "acme" "us-east-1" "2025-01-01T00:00:00" [exC6]
      = .error (.keyError "id") ∧
    CompileError.keyError "id" ≠ CompileError.missingRequiredField "id" :=
  ⟨rfl, by decide⟩

/-- C6 (amended): whenever any entry of the run lacks `id`, the whole run
aborts, failing with `KeyError('id')` (not a `MissingRequiredField`
error, which the code never constructs): no partial output is returned. -/
theorem C6_missing_id_keyerror (team region now : String) (apps : List AppSpec)
    (e : AppSpec) (he : e ∈ apps) (hid : e.id = none) :
    merge_apps_config team region now apps = .error (.keyError "id") := by
  induction apps with
  | nil => cases he
  | cons a rest ih =>
    rcases List.mem_cons.mp he with heq | hmem
    · subst heq
      simp [merge_apps_config, process_app, hid]
    · cases hpa : process_app team region now a with
      | error err =>
        rw [process_app_error_eq team region now a err hpa] at hpa
        simp [merge_apps_config, hpa]
      | ok s =>
        simp [merge_apps_config, hpa, ih hmem]

/-- C6 witness: a run whose second entry lacks `id` aborts whole with
`KeyError('id')`. -/
theorem C6_witness :
    merge_apps_config "acme" "us-east-1" "2025-01-01T00:00:00" [exC2, exC6]
      = .error (.keyError "id") :=
  C6_missing_id_keyerror "acme" "us-east-1" "2025-01-01T00:00:00"
    [exC2, exC6] exC6 (by decide) rfl

/-- C7: for every entry whose pre-initialization is disabled or absent,
the compiled output keeps the author-supplied header map unchanged and
the author-supplied env map gains exactly the `REDIS_NAMESPACE` key with
value `team ++ ":" ++ id`; no identity headers or env markers appear. -/
theorem C7_disabled_passthrough (team region now i : String) (e : AppSpec)
    (hdis : ¬ (e.preInitialization.getD {}).enabled.getD false = true)
    (hid : e.id = some i) :
    (merge_apps_config team region now [e]).map
        (·.map (fun s => (s.httpHeaders, s.containerEnv)))
      = .ok [(e.httpHeaders,
              some (updateAssoc "REDIS_NAMESPACE" (team ++ ":" ++ i)
                (e.containerEnv.getD [])))] := by
  have hcpi := configure_pre_initialization_not_enabled team e hdis
  simp only [merge_apps_config, process_app_eq_ok team region now e i hid]
  simp [Except.map, hcpi]

/-- C7 witness: for team `acme` and id `dash1` the disabled entry's
headers pass through and its env gains exactly
`REDIS_NAMESPACE = "acme:dash1"`. -/
theorem C7_witness :
    (merge_apps_config "acme" "us-east-1" "2025-01-01T00:00:00" [exC7]).map
        (·.map (fun s => (s.httpHeaders, s.containerEnv)))
      = .ok [(some [("H1", "v1")],
              some [("E1", "x"), ("REDIS_NAMESPACE", "acme:dash1")])] :=
  C7_disabled_passthrough "acme" "us-east-1" "2025-01-01T00:00:00" "dash1"
    exC7 (by decide) rfl

/-- C8: the header/env merge of `configure_pre_initialization` is
idempotent: applying it a second time (the policy block is part of the
entry and is never modified, so the policy is identical) leaves the
header and environment maps of the once-merged entry unchanged. -/
theorem C8_idempotent (team : String) (e : AppSpec) :
    (configure_pre_initialization team
        (configure_pre_initialization team e)).httpHeaders
      = (configure_pre_initialization team e).httpHeaders ∧
    (configure_pre_initialization team
        (configure_pre_initialization team e)).containerEnv
      = (configure_pre_initialization team e).containerEnv := by
  by_cases h : (e.preInitialization.getD {}).enabled.getD false = true
  · obtain ⟨-, hpre, -, -, -, -, -, -, hh, he⟩ :=
      configure_pre_initialization_enabled team e h
    have h2 : ((configure_pre_initialization team e).preInitialization.getD
        {}).enabled.getD false = true := by
      rw [hpre]; exact h
    obtain ⟨-, -, -, -, -, -, -, -, hh2, he2⟩ :=
      configure_pre_initialization_enabled team
        (configure_pre_initialization team e) h2
    constructor
    · rw [hh2, hh]
      simp only [Option.getD_some]
      rw [updateAll_idem _ (injected_headers_pairwise team)]
    · rw [he2, he]
      simp only [Option.getD_some]
      rw [updateAll_idem _ (injected_env_pairwise team)]
  · have hd := configure_pre_initialization_not_enabled team e h
    rw [hd, hd]
    exact ⟨rfl, rfl⟩

/-- C9: compiling the two-entry input (first entry pre-init enabled with
`minimum-seats = 1`, second disabled) yields a specs list of length 2 in
input order; the enabled entry carries `container-instances-min = 1`,
`container-instances-max = 3` and the fixed identity-header set appended
after its author header; the disabled entry carries only its author
headers, and its env gains only the namespace variable. -/
theorem C9_round_trip :
    (merge_apps_config "acme" "us-east-1" "2025-01-01T00:00:00"
        [exC9a, exC9b]).map
      (·.map (fun s => (s.id, s.containerInstancesMin, s.containerInstancesMax,
                        s.httpHeaders, s.containerEnv)))
    = .ok
      [(some "app-a", some 1, some 3,
        some [("X-Auth", "token123"),
              ("X-SP-UserId", "#\x7bproxy.userId\x7d"),
              ("X-SP-UserGroups", "#\x7bproxy.userGroups\x7d"),
              ("X-SP-UserAttributes", "#\x7bproxy.userAttributes\x7d"),
              ("X-SP-AccessToken", "#\x7boidcUser.accessToken\x7d"),
              ("X-SP-IdToken", "#\x7boidcUser.idToken\x7d"),
              ("X-SP-RefreshToken", "#\x7boidcUser.refreshToken\x7d"),
              ("X-SP-SessionId", "#\x7bproxy.sessionId\x7d"),
              ("X-SP-TeamName", "acme")],
        some [("SP_CONTAINER_PRE_INIT", "true"),
              ("SP_AUTH_TYPE", "header"),
              ("SP_TEAM_NAME", "acme"),
              ("SP_APP_INSTANCE_ID", "#\x7bproxy.appInstanceId\x7d"),
              ("REDIS_NAMESPACE", "acme:app-a")]),
       (some "app-b", none, none,
        some [("H1", "v1")],
        some [("E1", "x"), ("REDIS_NAMESPACE", "acme:app-b")])] :=
  rfl

/-- C10: in the continit variant, every entry with truthy `pre-initialize`
and no `container-env` key fails with `KeyError('container-env')` (the
env write at line 17 precedes the creation branch at lines 34-35), so a
run containing such an entry at the head can never complete. -/
theorem C10_missing_env_keyerror (team : String) (a : CApp) (rest : List CApp)
    (hpre : a.preInit.getD false = true) (henv : a.containerEnv = none) :
    process_capp team a = .error (.keyError "container-env") ∧
    merge_apps_into_proxy_config team (a :: rest)
      = .error (.keyError "container-env") := by
  have h1 : process_capp team a = .error (.keyError "container-env") := by
    simp [process_capp, hpre, henv]
  exact ⟨h1, by simp [merge_apps_into_proxy_config, h1]⟩

/-- C10 witness: the concrete entry `{id: x, pre-initialize: true}` fails
with `KeyError('container-env')` and aborts its run. -/
theorem C10_witness :
    process_capp "acme" exC10 = .error (.keyError "container-env") ∧
    merge_apps_into_proxy_config "acme" [exC10]
      = .error (.keyError "container-env") :=
  C10_missing_env_keyerror "acme" exC10 [] rfl rfl

end ShinyProxy
